import Mathlib

/-!
Shallow embedding of the WeatherData monitoring engine
(`src/weather_monitor.py`) and verification of its specification.

Modelling conventions:
* Temperatures are rationals (`ℚ`): the Python code performs exact
  arithmetic on the mathematical values; the spec demands exactness of
  the conversion formulas, so ℚ is the faithful idealisation.
* The alert counter dictionary `self.alert_counter` (keys
  `f"{city}_high_temp"`, `.get(key, 0)` defaulting to `0`) is a total
  function `String → Int` with default value `0`.
* The SQLite store is a pair of lists: raw readings (`weather_data`)
  and daily summaries (`daily_summaries`), appended in insertion order.
* The external HTTP fetch is an oracle `String → Option ApiResponse`;
  `none` is the exception path of `get_weather_data` (logged, returns
  `None`).
* The SMTP send inside `send_email_alert` is represented by a boolean
  oracle `smtpOk`; the Python `try/except` makes the function total
  either way.
-/

/-- Weather reading as built by `get_weather_data` and stored by
`store_weather_data`: city, converted temperature, converted feels-like,
main condition label, epoch timestamp. -/
structure Reading where
  city : String
  temperature : ℚ
  feels_like : ℚ
  main_condition : String
  timestamp : Int
deriving DecidableEq, Repr

/-- The `WeatherConfig` dataclass fields used by the core
(`api_key` and `db_path` only parameterise external collaborators and
are omitted; `email_config` is modelled by its presence). -/
structure WeatherConfig where
  interval : Nat
  cities : List String
  temp_unit : String := "celsius"
  high_temp_threshold : ℚ := 35
  consecutive_alerts : Int := 2
  emailConfigured : Bool := false
deriving DecidableEq, Repr

/-- `kelvin_to_celsius`: `return kelvin - 273.15`. -/
def kelvin_to_celsius (kelvin : ℚ) : ℚ :=
  kelvin - 273.15

/-- `kelvin_to_fahrenheit`: `celsius = kelvin_to_celsius(kelvin);
return (celsius * 9/5) + 32`. -/
def kelvin_to_fahrenheit (kelvin : ℚ) : ℚ :=
  kelvin_to_celsius kelvin * 9 / 5 + 32

/-- `convert_temperature`: celsius when the configured unit is
`'celsius'`, otherwise fahrenheit. -/
def convert_temperature (cfg : WeatherConfig) (kelvin : ℚ) : ℚ :=
  if cfg.temp_unit = "celsius" then
    kelvin_to_celsius kelvin
  else
    kelvin_to_fahrenheit kelvin

/-- C3: Unit conversion applies the exact standard formulas with no
intermediate rounding: Celsius = Kelvin − 273.15 and
Fahrenheit = Celsius·9/5 + 32; in particular `convert_temperature 300`
is exactly 26.85 under the celsius unit and exactly 80.33 under the
fahrenheit unit (hence equal to two decimal places). -/
theorem temperature_conversion_exact (cfg : WeatherConfig) (k : ℚ) :
    kelvin_to_celsius k = k - 273.15 ∧
    kelvin_to_fahrenheit k = (k - 273.15) * 9 / 5 + 32 ∧
    (cfg.temp_unit = "celsius" → convert_temperature cfg k = k - 273.15) ∧
    (cfg.temp_unit = "fahrenheit" →
      convert_temperature cfg k = (k - 273.15) * 9 / 5 + 32) ∧
    (cfg.temp_unit = "celsius" → convert_temperature cfg 300 = 26.85) ∧
    (cfg.temp_unit = "fahrenheit" → convert_temperature cfg 300 = 80.33) := by
  refine ⟨rfl, rfl, ?_, ?_, ?_, ?_⟩ <;> intro h <;>
    simp [convert_temperature, kelvin_to_fahrenheit, kelvin_to_celsius, h] <;>
    norm_num

/-- Concrete configuration with the celsius display unit (values of
`src/config.py`, restricted to one city). -/
def cfgCelsius : WeatherConfig :=
  ⟨300, ["Delhi"], "celsius", 35, 2, false⟩

/-- Concrete configuration with the fahrenheit display unit. -/
def cfgFahrenheit : WeatherConfig :=
  ⟨300, ["Delhi"], "fahrenheit", 35, 2, false⟩

/-- Witness for `temperature_conversion_exact` at the two configured
units and the reference input 300. -/
theorem temperature_conversion_exact_witness :
    convert_temperature cfgCelsius 300 = 26.85 ∧
    convert_temperature cfgFahrenheit 300 = 80.33 :=
  ⟨(temperature_conversion_exact cfgCelsius 300).2.2.2.2.1 rfl,
   (temperature_conversion_exact cfgFahrenheit 300).2.2.2.2.2 rfl⟩

/-- Alert counter dictionary `self.alert_counter`: total function with
default `0`, matching `dict.get(key, 0)` and the empty initial dict. -/
def AlertCounter : Type := String → Int

/-- Counter key for the high-temperature threshold of a city:
`f"{city}_high_temp"`. -/
def alertKey (city : String) : String :=
  city ++ "_high_temp"

/-- Dictionary assignment `counter[key] = v`. -/
def setCounter (counter : AlertCounter) (key : String) (v : Int) :
    AlertCounter :=
  fun k => if k = key then v else counter k

/-- Initial `self.alert_counter = {}`: every key reads as 0. -/
def initCounter : AlertCounter :=
  fun _ => 0

/-- Outcome of one call of the notification path. -/
inductive SinkOutcome where
  | notConfigured
  | sent
  | failedLogged
deriving DecidableEq, Repr

/-- `send_email_alert`: returns immediately when no email is
configured; otherwise attempts SMTP delivery, and a raised exception is
caught and logged (`except Exception ... logger.error`), so the call
always returns. `smtpOk` is the oracle for the external SMTP call. -/
def send_email_alert (emailConfigured : Bool) (smtpOk : Bool) :
    SinkOutcome :=
  if !emailConfigured then .notConfigured
  else if smtpOk then .sent
  else .failedLogged

/-- `trigger_alert`: logs a warning, then calls `send_email_alert` when
email is configured. -/
def trigger_alert (emailConfigured : Bool) (smtpOk : Bool) :
    SinkOutcome :=
  if emailConfigured then send_email_alert emailConfigured smtpOk
  else .notConfigured

/-- Result of one `check_temperature_alert` call: the updated counter
dictionary, whether `trigger_alert` was invoked, and the sink outcome
when it was. -/
structure AlertResult where
  counter : AlertCounter
  fired : Bool
  sink : Option SinkOutcome

/-- `check_temperature_alert`: on a breaching reading
(`temperature > high_temp_threshold`) increment the city key's counter;
when it reaches `consecutive_alerts`, trigger the alert and reset the
key to 0. On a non-breaching reading reset the key to 0. -/
def check_temperature_alert (cfg : WeatherConfig) (smtpOk : Bool)
    (counter : AlertCounter) (data : Reading) : AlertResult :=
  if data.temperature > cfg.high_temp_threshold then
    let key := alertKey data.city
    let counter1 := setCounter counter key (counter key + 1)
    if counter1 key ≥ cfg.consecutive_alerts then
      { counter := setCounter counter1 key 0
        fired := true
        sink := some (trigger_alert cfg.emailConfigured smtpOk) }
    else
      { counter := counter1, fired := false, sink := none }
  else
    { counter := setCounter counter (alertKey data.city) 0
      fired := false
      sink := none }

/-- Reading back the key just assigned returns the assigned value. -/
@[simp] theorem setCounter_self (c : AlertCounter) (k : String) (v : Int) :
    setCounter c k v k = v := by
  simp [setCounter]

/-- Reading a different key is unaffected by an assignment. -/
theorem setCounter_ne (c : AlertCounter) (k k' : String) (v : Int)
    (h : k' ≠ k) : setCounter c k v k' = c k' := by
  simp [setCounter, h]

/-- The fresh counter dictionary reads 0 at every key. -/
@[simp] theorem initCounter_apply (k : String) : initCounter k = 0 := rfl

/-- Counter component of one `check_temperature_alert` call. -/
def alertStep (cfg : WeatherConfig) (smtpOk : Bool) (counter : AlertCounter)
    (data : Reading) : AlertCounter :=
  (check_temperature_alert cfg smtpOk counter data).counter

/-- Feed a sequence of readings through `check_temperature_alert`
starting from the fresh (empty-dict) counter state. -/
def processReadings (cfg : WeatherConfig) (smtpOk : Bool)
    (rs : List Reading) : AlertCounter :=
  rs.foldl (alertStep cfg smtpOk) initCounter

/-- C1: with `consecutive_alerts = 2` and a fixed breaching reading `b`
(and a non-breaching reading `n` of the same city), starting fresh: the
first breach does not fire and leaves the counter at 1; the second
consecutive breach fires exactly one alert and resets the counter to 0;
the following non-breach leaves the counter at 0; a breach right after
the non-breach does not fire (counter 1, no carry-over) and one more
breach is needed to fire again. -/
theorem alert_hysteresis_consecutive_two (cfg : WeatherConfig)
    (smtpOk : Bool) (b n : Reading) (hca : cfg.consecutive_alerts = 2)
    (hb : b.temperature > cfg.high_temp_threshold)
    (hn : ¬ n.temperature > cfg.high_temp_threshold)
    (hcity : n.city = b.city) :
    let key := alertKey b.city
    let s1 := check_temperature_alert cfg smtpOk initCounter b
    let s2 := check_temperature_alert cfg smtpOk s1.counter b
    let s3 := check_temperature_alert cfg smtpOk s2.counter n
    let s4 := check_temperature_alert cfg smtpOk s3.counter b
    let s5 := check_temperature_alert cfg smtpOk s4.counter b
    (s1.fired = false ∧ s1.counter key = 1) ∧
    (s2.fired = true ∧ s2.counter key = 0) ∧
    (s3.fired = false ∧ s3.counter key = 0) ∧
    (s4.fired = false ∧ s4.counter key = 1) ∧
    (s5.fired = true ∧ s5.counter key = 0) := by
  simp [check_temperature_alert, alertKey, hcity, hca, if_pos hb,
    if_neg hn]

/-- A breaching reading (36 °C against the 35 °C threshold). -/
def readingBreach : Reading :=
  ⟨"Delhi", 36, 38, "Clear", 0⟩

/-- A non-breaching reading (30 °C against the 35 °C threshold). -/
def readingCool : Reading :=
  ⟨"Delhi", 30, 31, "Clear", 60⟩

/-- Witness for `alert_hysteresis_consecutive_two` with the default
configuration, a 36 °C breaching reading and a 30 °C cool reading. -/
theorem alert_hysteresis_consecutive_two_witness :
    let key := alertKey readingBreach.city
    let s1 := check_temperature_alert cfgCelsius true initCounter readingBreach
    let s2 := check_temperature_alert cfgCelsius true s1.counter readingBreach
    let s3 := check_temperature_alert cfgCelsius true s2.counter readingCool
    let s4 := check_temperature_alert cfgCelsius true s3.counter readingBreach
    let s5 := check_temperature_alert cfgCelsius true s4.counter readingBreach
    (s1.fired = false ∧ s1.counter key = 1) ∧
    (s2.fired = true ∧ s2.counter key = 0) ∧
    (s3.fired = false ∧ s3.counter key = 0) ∧
    (s4.fired = false ∧ s4.counter key = 1) ∧
    (s5.fired = true ∧ s5.counter key = 0) :=
  alert_hysteresis_consecutive_two cfgCelsius true readingBreach readingCool
    rfl (by norm_num [readingBreach, cfgCelsius])
    (by norm_num [readingCool, cfgCelsius]) rfl

/-- The counter state after one `check_temperature_alert` call is
non-negative at every key whenever the incoming state is. -/
theorem alertStep_nonneg (cfg : WeatherConfig) (smtpOk : Bool)
    (c : AlertCounter) (d : Reading) (hc : ∀ k, 0 ≤ c k) :
    ∀ k, 0 ≤ alertStep cfg smtpOk c d k := by
  intro k
  have hck := hc k
  have hckey := hc (alertKey d.city)
  by_cases hb : d.temperature > cfg.high_temp_threshold
  · by_cases hfire : cfg.consecutive_alerts ≤ c (alertKey d.city) + 1
    · simp [alertStep, check_temperature_alert, setCounter, hb, hfire]
      try split
      all_goals omega
    · simp [alertStep, check_temperature_alert, setCounter, hb, hfire]
      try split
      all_goals omega
  · simp [alertStep, check_temperature_alert, setCounter, hb]
    try split
    all_goals omega

/-- Folding `check_temperature_alert` over any reading sequence
preserves non-negativity of the counter state. -/
theorem foldl_alertStep_nonneg (cfg : WeatherConfig) (smtpOk : Bool)
    (rs : List Reading) :
    ∀ c : AlertCounter, (∀ k, 0 ≤ c k) →
      ∀ k, 0 ≤ rs.foldl (alertStep cfg smtpOk) c k := by
  induction rs with
  | nil => intro c hc; exact hc
  | cons d rs ih =>
    intro c hc
    exact ih _ (alertStep_nonneg cfg smtpOk c d hc)

/-- C2: every location's consecutive-breach count is non-negative after
processing any sequence of readings from the fresh state, and one
`check_temperature_alert` call leaves the reading's location at count 0
exactly when the reading is non-breaching or an alert fired on it. -/
theorem alert_counter_invariant (cfg : WeatherConfig) (smtpOk : Bool)
    (rs : List Reading) :
    (∀ k, 0 ≤ processReadings cfg smtpOk rs k) ∧
    (∀ (c : AlertCounter) (d : Reading), (∀ k, 0 ≤ c k) →
      ((check_temperature_alert cfg smtpOk c d).counter
          (alertKey d.city) = 0 ↔
        d.temperature ≤ cfg.high_temp_threshold ∨
          (check_temperature_alert cfg smtpOk c d).fired = true)) := by
  constructor
  · exact foldl_alertStep_nonneg cfg smtpOk rs initCounter
      (fun k => le_refl 0)
  · intro c d hc
    have hckey := hc (alertKey d.city)
    by_cases hb : d.temperature > cfg.high_temp_threshold
    · simp only [check_temperature_alert, if_pos hb]
      split
      · simp
      · simp [not_le.mpr hb]
        omega
    · push_neg at hb
      simp [check_temperature_alert, not_lt.mpr hb, hb]

/-- Witness for `alert_counter_invariant` after two breaching readings
and for one step from the fresh state. -/
theorem alert_counter_invariant_witness :
    0 ≤ processReadings cfgCelsius true [readingBreach, readingBreach]
        (alertKey "Delhi") ∧
    ((check_temperature_alert cfgCelsius true initCounter
          readingBreach).counter (alertKey readingBreach.city) = 0 ↔
      readingBreach.temperature ≤ cfgCelsius.high_temp_threshold ∨
        (check_temperature_alert cfgCelsius true initCounter
            readingBreach).fired = true) :=
  ⟨(alert_counter_invariant cfgCelsius true
      [readingBreach, readingBreach]).1 (alertKey "Delhi"),
   (alert_counter_invariant cfgCelsius true
      [readingBreach, readingBreach]).2 initCounter readingBreach
      (fun _ => le_refl 0)⟩

/-- C8: the alert decision and counter update are independent of the
Alert Sink: the counter state and the fired flag after
`check_temperature_alert` are the same whether the SMTP call succeeds
or fails (the `try/except` in `send_email_alert` makes the call total);
whenever an alert fires the location's counter is 0, and on a delivery
failure with email configured the failure is logged, not raised. -/
theorem sink_failure_no_rollback (cfg : WeatherConfig) (c : AlertCounter)
    (d : Reading) :
    (∀ smtpOk k, (check_temperature_alert cfg smtpOk c d).counter k =
        (check_temperature_alert cfg true c d).counter k ∧
      (check_temperature_alert cfg smtpOk c d).fired =
        (check_temperature_alert cfg true c d).fired) ∧
    (∀ smtpOk, (check_temperature_alert cfg smtpOk c d).fired = true →
      (check_temperature_alert cfg smtpOk c d).counter
        (alertKey d.city) = 0) ∧
    (cfg.emailConfigured = true →
      (check_temperature_alert cfg false c d).fired = true →
      (check_temperature_alert cfg false c d).sink =
        some SinkOutcome.failedLogged) := by
  refine ⟨?_, ?_, ?_⟩
  · intro smtpOk k
    by_cases hb : d.temperature > cfg.high_temp_threshold <;>
      by_cases hfire : cfg.consecutive_alerts ≤ c (alertKey d.city) + 1 <;>
      simp [check_temperature_alert, setCounter, hb, hfire]
  · intro smtpOk
    by_cases hb : d.temperature > cfg.high_temp_threshold <;>
      by_cases hfire : cfg.consecutive_alerts ≤ c (alertKey d.city) + 1 <;>
      simp [check_temperature_alert, setCounter, hb, hfire]
  · intro hec
    by_cases hb : d.temperature > cfg.high_temp_threshold <;>
      by_cases hfire : cfg.consecutive_alerts ≤ c (alertKey d.city) + 1 <;>
      simp [check_temperature_alert, trigger_alert, send_email_alert,
        setCounter, hb, hfire, hec]

/-- Witness for `sink_failure_no_rollback`: with email configured and a
failing SMTP call, a second consecutive breach still fires and resets
the counter to 0, and the failure is a logged sink outcome. -/
theorem sink_failure_no_rollback_witness :
    let cfg : WeatherConfig := ⟨300, ["Delhi"], "celsius", 35, 2, true⟩
    let c1 := setCounter initCounter (alertKey "Delhi") 1
    ((check_temperature_alert cfg false c1 readingBreach).counter
        (alertKey "Delhi") =
      (check_temperature_alert cfg true c1 readingBreach).counter
        (alertKey "Delhi")) ∧
    ((check_temperature_alert cfg false c1 readingBreach).fired = true →
      (check_temperature_alert cfg false c1 readingBreach).counter
        (alertKey readingBreach.city) = 0) ∧
    ((check_temperature_alert cfg false c1 readingBreach).fired = true →
      (check_temperature_alert cfg false c1 readingBreach).sink =
        some SinkOutcome.failedLogged) :=
  ⟨((sink_failure_no_rollback ⟨300, ["Delhi"], "celsius", 35, 2, true⟩
      (setCounter initCounter (alertKey "Delhi") 1) readingBreach).1
      false (alertKey "Delhi")).1,
   (sink_failure_no_rollback ⟨300, ["Delhi"], "celsius", 35, 2, true⟩
      (setCounter initCounter (alertKey "Delhi") 1) readingBreach).2.1
      false,
   (sink_failure_no_rollback ⟨300, ["Delhi"], "celsius", 35, 2, true⟩
      (setCounter initCounter (alertKey "Delhi") 1) readingBreach).2.2
      rfl⟩

/-- Daily summary row of the `daily_summaries` table: city, calendar
date (modelled as a day index; the code stores the formatted date
string), avg/max/min temperature, dominant condition, and the
serialized snapshot of the queried `(temperature, main_condition)`
rows (`df.to_json()`). -/
structure DailySummary where
  city : String
  date : Int
  avg_temp : ℚ
  max_temp : ℚ
  min_temp : ℚ
  dominant_condition : String
  summary_data : List (ℚ × String)
deriving DecidableEq, Repr

/-- `store_weather_data`: `if not data: return`, otherwise insert one
row into `weather_data`. -/
def store_weather_data (db : List Reading) (data : Option Reading) :
    List Reading :=
  match data with
  | none => db
  | some d => db ++ [d]

/-- Local-midnight start-of-day timestamp
(`datetime.combine(date, datetime.min.time()).timestamp()`), with the
day index as the calendar date and local time equal to UTC. -/
def dayStartTs (date : Int) : Int :=
  date * 86400

/-- End-of-day timestamp
(`int(datetime.combine(date, datetime.max.time()).timestamp())`:
23:59:59.999999 truncated to whole seconds). -/
def dayEndTs (date : Int) : Int :=
  date * 86400 + 86399

/-- The SQL query `SELECT temperature, main_condition FROM weather_data
WHERE city = ? AND timestamp BETWEEN ? AND ?` over the reading log
(`BETWEEN` is inclusive on both ends). -/
def query_range (db : List Reading) (city : String)
    (startTs endTs : Int) : List Reading :=
  db.filter (fun r =>
    r.city = city ∧ startTs ≤ r.timestamp ∧ r.timestamp ≤ endTs)

/-- `pandas.Series.mean` of a column: sum divided by length. -/
def seriesMean (l : List ℚ) : ℚ :=
  l.sum / l.length

/-- `pandas.Series.max` of a non-empty column (0 for the empty column,
which the code never queries). -/
def seriesMax : List ℚ → ℚ
  | [] => 0
  | x :: xs => xs.foldl max x

/-- `pandas.Series.min` of a non-empty column. -/
def seriesMin : List ℚ → ℚ
  | [] => 0
  | x :: xs => xs.foldl min x

/-- The highest occurrence count among the values of a column. -/
def maxCnt (conds : List String) : Nat :=
  (conds.map (fun c => conds.count c)).foldl max 0

/-- `pandas.Series.mode`: the distinct values attaining the highest
occurrence count, returned in ascending sorted order. -/
def seriesMode (conds : List String) : List String :=
  List.insertionSort (· ≤ ·)
    (conds.dedup.filter (fun c => conds.count c = maxCnt conds))

/-- `df['main_condition'].mode()[0]`: first element of the sorted mode
series (present whenever the column is non-empty). -/
def modeFirst (conds : List String) : Option String :=
  (seriesMode conds).head?

/-- The summary dict built at lines 143–151 of
`calculate_daily_summary`, `None` when the queried frame is empty. -/
def daily_summary_value (db : List Reading) (city : String)
    (date : Int) : Option DailySummary :=
  let rows := query_range db city (dayStartTs date) (dayEndTs date)
  if rows = [] then none
  else
    let temps := rows.map (fun r => r.temperature)
    let conds := rows.map (fun r => r.main_condition)
    some
      { city := city
        date := date
        avg_temp := seriesMean temps
        max_temp := seriesMax temps
        min_temp := seriesMin temps
        dominant_condition := (modeFirst conds).getD ""
        summary_data := rows.map (fun r => (r.temperature, r.main_condition)) }

/-- `calculate_daily_summary`: query the day's rows for the city;
return `None` on an empty frame, otherwise insert exactly one new
`daily_summaries` row and return the summary. The reading log is not
modified. -/
def calculate_daily_summary (db : List Reading)
    (summaries : List DailySummary) (city : String) (date : Int) :
    Option DailySummary × List DailySummary :=
  match daily_summary_value db city date with
  | none => (none, summaries)
  | some s => (some s, summaries ++ [s])

/-- A `max`-fold over a list lands on the seed or on a list element. -/
theorem foldl_max_mem_cons {α : Type} [LinearOrder α] (xs : List α) :
    ∀ a : α, xs.foldl max a ∈ a :: xs := by
  induction xs with
  | nil => intro a; exact List.mem_singleton.mpr rfl
  | cons y ys ih =>
    intro a
    show ys.foldl max (max a y) ∈ a :: y :: ys
    rcases List.mem_cons.mp (ih (max a y)) with h1 | h1
    · rcases max_choice a y with hm | hm
      · rw [h1, hm]; exact List.mem_cons_self a _
      · rw [h1, hm]
        exact List.mem_cons_of_mem _ (List.mem_cons_self y _)
    · exact List.mem_cons_of_mem _ (List.mem_cons_of_mem _ h1)

/-- A `max`-fold bounds its seed and every list element from above. -/
theorem le_foldl_max {α : Type} [LinearOrder α] (xs : List α) :
    ∀ a : α, a ≤ xs.foldl max a ∧ ∀ x ∈ xs, x ≤ xs.foldl max a := by
  induction xs with
  | nil => intro a; exact ⟨le_refl a, by simp⟩
  | cons y ys ih =>
    intro a
    obtain ⟨h1, h2⟩ := ih (max a y)
    refine ⟨le_trans (le_max_left a y) h1, ?_⟩
    intro x hx
    rcases List.mem_cons.mp hx with rfl | hx
    · exact le_trans (le_max_right a x) h1
    · exact h2 x hx

/-- A `min`-fold over a list lands on the seed or on a list element. -/
theorem foldl_min_mem_cons {α : Type} [LinearOrder α] (xs : List α) :
    ∀ a : α, xs.foldl min a ∈ a :: xs := by
  induction xs with
  | nil => intro a; exact List.mem_singleton.mpr rfl
  | cons y ys ih =>
    intro a
    show ys.foldl min (min a y) ∈ a :: y :: ys
    rcases List.mem_cons.mp (ih (min a y)) with h1 | h1
    · rcases min_choice a y with hm | hm
      · rw [h1, hm]; exact List.mem_cons_self a _
      · rw [h1, hm]
        exact List.mem_cons_of_mem _ (List.mem_cons_self y _)
    · exact List.mem_cons_of_mem _ (List.mem_cons_of_mem _ h1)

/-- A `min`-fold bounds its seed and every list element from below. -/
theorem foldl_min_le {α : Type} [LinearOrder α] (xs : List α) :
    ∀ a : α, xs.foldl min a ≤ a ∧ ∀ x ∈ xs, xs.foldl min a ≤ x := by
  induction xs with
  | nil => intro a; exact ⟨le_refl a, by simp⟩
  | cons y ys ih =>
    intro a
    obtain ⟨h1, h2⟩ := ih (min a y)
    refine ⟨le_trans h1 (min_le_left a y), ?_⟩
    intro x hx
    rcases List.mem_cons.mp hx with rfl | hx
    · exact le_trans h1 (min_le_right a x)
    · exact h2 x hx

/-- The column maximum is one of the column's values. -/
theorem seriesMax_mem (l : List ℚ) (h : l ≠ []) : seriesMax l ∈ l := by
  match l with
  | x :: xs => exact foldl_max_mem_cons xs x

/-- Every column value is at most the column maximum. -/
theorem le_seriesMax (l : List ℚ) : ∀ t ∈ l, t ≤ seriesMax l := by
  match l with
  | [] => simp
  | x :: xs =>
    intro t ht
    rcases List.mem_cons.mp ht with rfl | ht
    · exact (le_foldl_max xs t).1
    · exact (le_foldl_max xs x).2 t ht

/-- The column minimum is one of the column's values. -/
theorem seriesMin_mem (l : List ℚ) (h : l ≠ []) : seriesMin l ∈ l := by
  match l with
  | x :: xs => exact foldl_min_mem_cons xs x

/-- The column minimum is at most every column value. -/
theorem seriesMin_le (l : List ℚ) : ∀ t ∈ l, seriesMin l ≤ t := by
  match l with
  | [] => simp
  | x :: xs =>
    intro t ht
    rcases List.mem_cons.mp ht with rfl | ht
    · exact (foldl_min_le xs t).1
    · exact (foldl_min_le xs x).2 t ht

/-- No value occurs more often than the highest occurrence count. -/
theorem count_le_maxCnt (conds : List String) (c : String)
    (hc : c ∈ conds) : conds.count c ≤ maxCnt conds :=
  (le_foldl_max (conds.map (fun d => conds.count d)) 0).2 _
    (List.mem_map_of_mem _ hc)

/-- On a non-empty column the highest occurrence count is attained. -/
theorem maxCnt_attained (conds : List String) (h : conds ≠ []) :
    ∃ c ∈ conds, conds.count c = maxCnt conds := by
  rcases List.mem_cons.mp
      (foldl_max_mem_cons (conds.map (fun d => conds.count d)) 0) with
    h0 | h0
  · exfalso
    obtain ⟨x, hx⟩ := List.exists_mem_of_ne_nil conds h
    have h1 : 0 < conds.count x := List.count_pos_iff.mpr hx
    have h2 := count_le_maxCnt conds x hx
    have h3 : maxCnt conds = 0 := h0
    omega
  · obtain ⟨c, hc, hcc⟩ := List.mem_map.mp h0
    exact ⟨c, hc, hcc⟩

/-- Full characterisation of `mode()[0]` on a non-empty column: it is a
value of the column, no value occurs more often, and among the values
tied at the highest count it is the lexicographically smallest. -/
theorem modeFirst_spec (conds : List String) (h : conds ≠ []) :
    ∃ m, modeFirst conds = some m ∧ m ∈ conds ∧
      (∀ c ∈ conds, conds.count c ≤ conds.count m) ∧
      (∀ c ∈ conds, conds.count c = conds.count m → m ≤ c) := by
  obtain ⟨c0, hc0, hc0c⟩ := maxCnt_attained conds h
  have hc0cand :
      c0 ∈ conds.dedup.filter (fun d => conds.count d = maxCnt conds) :=
    List.mem_filter.mpr ⟨List.mem_dedup.mpr hc0, by simp [hc0c]⟩
  have hperm := List.perm_insertionSort (fun a b : String => a ≤ b)
    (conds.dedup.filter (fun d => conds.count d = maxCnt conds))
  have hsort := List.sorted_insertionSort (fun a b : String => a ≤ b)
    (conds.dedup.filter (fun d => conds.count d = maxCnt conds))
  cases hsm : List.insertionSort (fun a b : String => a ≤ b)
      (conds.dedup.filter (fun d => conds.count d = maxCnt conds)) with
  | nil =>
    exfalso
    rw [hsm] at hperm
    exact absurd (hperm.symm.mem_iff.mp hc0cand) (List.not_mem_nil c0)
  | cons m rest =>
    rw [hsm] at hperm hsort
    have hmcand :
        m ∈ conds.dedup.filter (fun d => conds.count d = maxCnt conds) :=
      hperm.mem_iff.mp (List.mem_cons_self m rest)
    obtain ⟨hmded, hmcnt⟩ := List.mem_filter.mp hmcand
    have hmcnt' : conds.count m = maxCnt conds := by simpa using hmcnt
    have hmmem : m ∈ conds := List.mem_dedup.mp hmded
    refine ⟨m, ?_, hmmem, ?_, ?_⟩
    · show (seriesMode conds).head? = some m
      unfold seriesMode
      rw [hsm]
      rfl
    · intro c hc
      rw [hmcnt']
      exact count_le_maxCnt conds c hc
    · intro c hc hcc
      have hccand :
          c ∈ conds.dedup.filter (fun d => conds.count d = maxCnt conds) :=
        List.mem_filter.mpr ⟨List.mem_dedup.mpr hc, by
          simp [hcc, hmcnt']⟩
      rcases List.mem_cons.mp (hperm.mem_iff.mpr hccand) with rfl | hcr
      · exact le_refl c
      · exact List.rel_of_sorted_cons hsort c hcr

/-- C5: a location/date with zero stored readings in the day's query
range yields no summary, no inserted `daily_summaries` row, and no
error: `calculate_daily_summary` is total and returns the explicit
empty outcome with the summary table unchanged. -/
theorem daily_summary_empty_range (db : List Reading)
    (summaries : List DailySummary) (city : String) (date : Int)
    (h : query_range db city (dayStartTs date) (dayEndTs date) = []) :
    calculate_daily_summary db summaries city date = (none, summaries) := by
  simp [calculate_daily_summary, daily_summary_value, h]

/-- Witness for `daily_summary_empty_range` on an empty reading log. -/
theorem daily_summary_empty_range_witness :
    calculate_daily_summary [] [] "Delhi" 0 = (none, []) :=
  daily_summary_empty_range [] [] "Delhi" 0 rfl

/-- `n` successive invocations of `calculate_daily_summary` for the
same (city, date), each feeding the summary table it produced to the
next (the reading log is never modified by aggregation). -/
def iterate_summary (db : List Reading) (city : String) (date : Int) :
    Nat → List DailySummary → List DailySummary
  | 0, summaries => summaries
  | n + 1, summaries =>
      iterate_summary db city date n
        (calculate_daily_summary db summaries city date).2

/-- C7: `calculate_daily_summary` is not idempotent: when the day's
range holds at least one reading, every invocation succeeds with the
same summary `s` and appends one new row, so `n` invocations append
exactly `n` duplicate rows. -/
theorem daily_summary_not_idempotent (db : List Reading)
    (summaries : List DailySummary) (city : String) (date : Int)
    (h : query_range db city (dayStartTs date) (dayEndTs date) ≠ []) :
    ∃ s, (calculate_daily_summary db summaries city date).1 = some s ∧
      ∀ n, iterate_summary db city date n summaries =
        summaries ++ List.replicate n s := by
  obtain ⟨s, hs⟩ : ∃ s, daily_summary_value db city date = some s := by
    simp only [daily_summary_value, if_neg h]
    exact ⟨_, rfl⟩
  have key : ∀ sums, calculate_daily_summary db sums city date =
      (some s, sums ++ [s]) := by
    intro sums
    unfold calculate_daily_summary
    rw [hs]
  refine ⟨s, by rw [key summaries], ?_⟩
  have main : ∀ n sums, iterate_summary db city date n sums =
      sums ++ List.replicate n s := by
    intro n
    induction n with
    | zero => intro sums; simp [iterate_summary]
    | succ m ih =>
      intro sums
      show iterate_summary db city date m
          (calculate_daily_summary db sums city date).2 =
        sums ++ List.replicate (m + 1) s
      rw [key sums]
      show iterate_summary db city date m (sums ++ [s]) =
        sums ++ List.replicate (m + 1) s
      rw [ih (sums ++ [s])]
      simp [List.replicate_succ]
  exact fun n => main n summaries

/-- The three readings of the reference aggregation test: temperatures
25.0/30.0/28.0 with conditions Clear/Clear/Clouds for one city on one
day. -/
def testDb : List Reading :=
  [⟨"Delhi", 25, 26, "Clear", 100⟩,
   ⟨"Delhi", 30, 32, "Clear", 200⟩,
   ⟨"Delhi", 28, 29, "Clouds", 300⟩]

/-- C4: on the reference data the summary has average within ±0.01 of
27.67, max 30, min 25 and dominant condition "Clear"; in general, on a
non-empty day range, the summary's average is the arithmetic mean of
the queried temperatures, its max/min are attained queried temperatures
bounding all of them, and its dominant condition is a most frequently
occurring condition label. -/
theorem daily_summary_correct :
    (∃ s, (calculate_daily_summary testDb [] "Delhi" 0).1 = some s ∧
      |s.avg_temp - 27.67| ≤ 0.01 ∧ s.max_temp = 30 ∧ s.min_temp = 25 ∧
      s.dominant_condition = "Clear") ∧
    (∀ (db : List Reading) (summaries : List DailySummary)
      (city : String) (date : Int),
      let rows := query_range db city (dayStartTs date) (dayEndTs date)
      let temps := rows.map fun r => r.temperature
      let conds := rows.map fun r => r.main_condition
      rows ≠ [] →
      ∃ s, (calculate_daily_summary db summaries city date).1 = some s ∧
        s.avg_temp = temps.sum / (temps.length : ℚ) ∧
        s.max_temp ∈ temps ∧ (∀ t ∈ temps, t ≤ s.max_temp) ∧
        s.min_temp ∈ temps ∧ (∀ t ∈ temps, s.min_temp ≤ t) ∧
        s.dominant_condition ∈ conds ∧
        (∀ c ∈ conds, conds.count c ≤ conds.count s.dominant_condition)) := by
  constructor
  · refine ⟨⟨"Delhi", 0, seriesMean [25, 30, 28], 30, 25, "Clear",
      [(25, "Clear"), (30, "Clear"), (28, "Clouds")]⟩, ?_, ?_, rfl, rfl,
      rfl⟩
    · rfl
    · show |seriesMean [25, 30, 28] - 27.67| ≤ 0.01
      have hm : seriesMean [25, 30, 28] = 83 / 3 := by
        norm_num [seriesMean]
      rw [hm, abs_le]
      constructor <;> norm_num
  · intro db summaries city date rows temps conds hne
    have htne : temps ≠ [] := fun hm =>
      hne (List.map_eq_nil_iff.mp hm)
    have hcne : conds ≠ [] := fun hm =>
      hne (List.map_eq_nil_iff.mp hm)
    obtain ⟨m, hmeq, hmmem, hmmax, _⟩ := modeFirst_spec conds hcne
    refine ⟨⟨city, date, seriesMean temps, seriesMax temps,
      seriesMin temps, (modeFirst conds).getD "",
      rows.map fun r => (r.temperature, r.main_condition)⟩, ?_, ?_, ?_,
      ?_, ?_, ?_, ?_, ?_⟩
    · simp only [calculate_daily_summary, daily_summary_value,
        if_neg hne]
    · rfl
    · exact seriesMax_mem temps htne
    · exact le_seriesMax temps
    · exact seriesMin_mem temps htne
    · exact seriesMin_le temps
    · show (modeFirst conds).getD "" ∈ conds
      rw [hmeq]
      exact hmmem
    · intro c hc
      show conds.count c ≤ conds.count ((modeFirst conds).getD "")
      rw [hmeq]
      exact hmmax c hc

/-- Witness for `daily_summary_correct` (general part) on the
reference data. -/
theorem daily_summary_correct_witness :
    let rows := query_range testDb "Delhi" (dayStartTs 0) (dayEndTs 0)
    let temps := rows.map fun r => r.temperature
    let conds := rows.map fun r => r.main_condition
    ∃ s, (calculate_daily_summary testDb [] "Delhi" 0).1 = some s ∧
      s.avg_temp = temps.sum / (temps.length : ℚ) ∧
      s.max_temp ∈ temps ∧ (∀ t ∈ temps, t ≤ s.max_temp) ∧
      s.min_temp ∈ temps ∧ (∀ t ∈ temps, s.min_temp ≤ t) ∧
      s.dominant_condition ∈ conds ∧
      (∀ c ∈ conds, conds.count c ≤ conds.count s.dominant_condition) :=
  daily_summary_correct.2 testDb [] "Delhi" 0 (by decide)

/-- Witness for `daily_summary_not_idempotent` on the reference data. -/
theorem daily_summary_not_idempotent_witness :
    ∃ s, (calculate_daily_summary testDb [] "Delhi" 0).1 = some s ∧
      ∀ n, iterate_summary testDb "Delhi" 0 n [] =
        [] ++ List.replicate n s :=
  daily_summary_not_idempotent testDb [] "Delhi" 0 (by decide)

/-- C10: when condition labels tie for the highest frequency, the
summary's dominant condition is the lexicographically smallest tied
label: it occurs at least as often as every label in the range, and it
is `≤` every label that attains the same count (pandas `mode()` returns
the tied values sorted ascending and `[0]` takes the first). -/
theorem dominant_condition_tie_lex_min (db : List Reading)
    (summaries : List DailySummary) (city : String) (date : Int)
    (hne : query_range db city (dayStartTs date) (dayEndTs date) ≠ []) :
    ∃ s, (calculate_daily_summary db summaries city date).1 = some s ∧
      (let conds := (query_range db city (dayStartTs date)
          (dayEndTs date)).map fun r => r.main_condition
       s.dominant_condition ∈ conds ∧
       (∀ c ∈ conds, conds.count c ≤ conds.count s.dominant_condition) ∧
       (∀ c ∈ conds, conds.count c = conds.count s.dominant_condition →
         s.dominant_condition ≤ c)) := by
  have hcne : (query_range db city (dayStartTs date)
      (dayEndTs date)).map (fun r => r.main_condition) ≠ [] := fun hm =>
    hne (List.map_eq_nil_iff.mp hm)
  obtain ⟨m, hmeq, hmmem, hmmax, hmtie⟩ := modeFirst_spec _ hcne
  refine ⟨⟨city, date,
    seriesMean ((query_range db city (dayStartTs date)
      (dayEndTs date)).map fun r => r.temperature),
    seriesMax ((query_range db city (dayStartTs date)
      (dayEndTs date)).map fun r => r.temperature),
    seriesMin ((query_range db city (dayStartTs date)
      (dayEndTs date)).map fun r => r.temperature),
    (modeFirst ((query_range db city (dayStartTs date)
      (dayEndTs date)).map fun r => r.main_condition)).getD "",
    (query_range db city (dayStartTs date) (dayEndTs date)).map
      fun r => (r.temperature, r.main_condition)⟩, ?_, ?_, ?_, ?_⟩
  · simp only [calculate_daily_summary, daily_summary_value, if_neg hne]
  · show (modeFirst _).getD "" ∈ _
    rw [hmeq]
    exact hmmem
  · intro c hc
    show _ ≤ List.count ((modeFirst _).getD "") _
    rw [hmeq]
    exact hmmax c hc
  · intro c hc
    rw [hmeq]
    exact hmtie c hc

/-- Two readings whose condition labels tie at one occurrence each. -/
def tieDb : List Reading :=
  [⟨"Delhi", 20, 21, "Rain", 100⟩,
   ⟨"Delhi", 22, 23, "Clear", 200⟩]

/-- Witness for `dominant_condition_tie_lex_min`: on a Rain/Clear tie
the summary exists, and concretely the selected dominant condition is
"Clear", the lexicographically smaller tied label. -/
theorem dominant_condition_tie_lex_min_witness :
    (∃ s, (calculate_daily_summary tieDb [] "Delhi" 0).1 = some s ∧
      (let conds := (query_range tieDb "Delhi" (dayStartTs 0)
          (dayEndTs 0)).map fun r => r.main_condition
       s.dominant_condition ∈ conds ∧
       (∀ c ∈ conds, conds.count c ≤ conds.count s.dominant_condition) ∧
       (∀ c ∈ conds, conds.count c = conds.count s.dominant_condition →
         s.dominant_condition ≤ c))) ∧
    Option.map (fun s => s.dominant_condition)
      (calculate_daily_summary tieDb [] "Delhi" 0).1 = some "Clear" :=
  ⟨dominant_condition_tie_lex_min tieDb [] "Delhi" 0 (by decide), by
    have hcand : (["Rain", "Clear"].dedup.filter
        (fun c => ["Rain", "Clear"].count c = maxCnt ["Rain", "Clear"])) =
        ["Rain", "Clear"] := by decide
    have hmode : modeFirst ["Rain", "Clear"] = some "Clear" := by
      unfold modeFirst seriesMode
      rw [hcand]
      simp [List.insertionSort, List.orderedInsert]
      decide
    have h1 : (calculate_daily_summary tieDb [] "Delhi" 0).1 =
        some ⟨"Delhi", 0, seriesMean [20, 22], seriesMax [20, 22],
          seriesMin [20, 22], (modeFirst ["Rain", "Clear"]).getD "",
          [(20, "Rain"), (22, "Clear")]⟩ := rfl
    rw [h1, hmode]
    rfl⟩

/-- Fields of the OpenWeatherMap response consumed by
`get_weather_data`: `data['main']['temp']`, `data['main']['feels_like']`,
`data['weather'][0]['main']`, `data['dt']`. -/
structure ApiResponse where
  temp : ℚ
  feels_like : ℚ
  weather_main : String
  dt : Int
deriving DecidableEq, Repr

/-- `get_weather_data`: on a successful response build the normalized
reading with unit-converted temperatures; on the exception path
(`except Exception`: network or parse failure, modelled by `none`) log
the error and return `None`. -/
def get_weather_data (cfg : WeatherConfig) (city : String)
    (resp : Option ApiResponse) : Option Reading :=
  match resp with
  | none => none
  | some r =>
      some ⟨city, convert_temperature cfg r.temp,
        convert_temperature cfg r.feels_like, r.weather_main, r.dt⟩

/-- Wall-clock sample taken once per cycle (`datetime.now()`): hour,
minute, and the current local calendar date as a day index. -/
structure LocalTime where
  hour : Nat
  minute : Nat
  date : Int
deriving DecidableEq, Repr

/-- Observable state of the monitor: the two store tables, the alert
counter dictionary, the alerts triggered, and the Aggregator
invocations `(city, date)` performed. -/
structure MonitorState where
  db : List Reading
  summaries : List DailySummary
  counter : AlertCounter
  alerts : List (String × ℚ)
  aggCalls : List (String × Int)

/-- Per-location body of the cycle loop (lines 216–220 of `run`):
fetch; if the fetch produced data, store the reading and run the alert
check; otherwise leave all state unchanged and continue. -/
def process_city (cfg : WeatherConfig) (smtpOk : Bool)
    (fetch : String → Option ApiResponse) (st : MonitorState)
    (city : String) : MonitorState :=
  match get_weather_data cfg city (fetch city) with
  | none => st
  | some data =>
      let db1 := store_weather_data st.db (some data)
      let r := check_temperature_alert cfg smtpOk st.counter data
      { st with
        db := db1
        counter := r.counter
        alerts := st.alerts ++
          (if r.fired then [(data.city, data.temperature)] else []) }

/-- One Aggregator invocation inside the midnight loop:
`self.calculate_daily_summary(city, yesterday)`. -/
def aggregateStep (st : MonitorState) (date : Int) (city : String) :
    MonitorState :=
  let p := calculate_daily_summary st.db st.summaries city date
  { st with
    summaries := p.2
    aggCalls := st.aggCalls ++ [(city, date)] }

/-- One cycle of the `while True` loop of `run`: process every
configured city in order, then sample the wall clock once and, exactly
when `hour == 0 and minute == 0`, invoke the Aggregator once per
configured city for the previous calendar date. -/
def run_cycle (cfg : WeatherConfig) (smtpOk : Bool)
    (fetch : String → Option ApiResponse) (now : LocalTime)
    (st : MonitorState) : MonitorState :=
  let st1 := cfg.cities.foldl (process_city cfg smtpOk fetch) st
  if now.hour = 0 ∧ now.minute = 0 then
    cfg.cities.foldl (fun s city => aggregateStep s (now.date - 1) city) st1
  else
    st1

/-- C6: a failed fetch for location `x` contributes nothing to the
cycle: the per-location fetch-store-check pass over any city list
produces exactly the state it would produce with `x` removed from the
list, so every other location is fetched, stored and alert-checked as
if `x` were absent. -/
theorem fetch_failure_isolated (cfg : WeatherConfig) (smtpOk : Bool)
    (fetch : String → Option ApiResponse) (x : String)
    (hx : fetch x = none) (st : MonitorState) (l : List String) :
    l.foldl (process_city cfg smtpOk fetch) st =
      (l.filter (fun c => c ≠ x)).foldl
        (process_city cfg smtpOk fetch) st := by
  induction l generalizing st with
  | nil => rfl
  | cons y ys ih =>
    rw [List.foldl_cons]
    by_cases hy : y = x
    · have hskip : process_city cfg smtpOk fetch st y = st := by
        simp [process_city, get_weather_data, hy, hx]
      have hfilter : List.filter (fun c => decide (c ≠ x)) (y :: ys) =
          List.filter (fun c => decide (c ≠ x)) ys := by
        simp [List.filter_cons, hy]
      rw [hskip, hfilter]
      exact ih st
    · have hfilter : List.filter (fun c => decide (c ≠ x)) (y :: ys) =
          y :: List.filter (fun c => decide (c ≠ x)) ys := by
        simp [List.filter_cons, hy]
      rw [hfilter, List.foldl_cons]
      exact ih (process_city cfg smtpOk fetch st y)

/-- Fresh monitor state: empty store, empty counter dict, nothing
triggered. -/
def initState : MonitorState :=
  ⟨[], [], initCounter, [], []⟩

/-- A fetch oracle that fails for Mumbai and succeeds elsewhere. -/
def fetchSkipMumbai (city : String) : Option ApiResponse :=
  if city = "Mumbai" then none else some ⟨300, 301, "Clear", 100⟩

/-- Witness for `fetch_failure_isolated`: with Mumbai's fetch failing,
a Delhi-Mumbai-Chennai cycle pass equals the pass over the list with
Mumbai filtered out. -/
theorem fetch_failure_isolated_witness :
    ["Delhi", "Mumbai", "Chennai"].foldl
        (process_city cfgCelsius true fetchSkipMumbai) initState =
      (["Delhi", "Mumbai", "Chennai"].filter
          (fun c => c ≠ "Mumbai")).foldl
        (process_city cfgCelsius true fetchSkipMumbai) initState :=
  fetch_failure_isolated cfgCelsius true fetchSkipMumbai "Mumbai" rfl
    initState ["Delhi", "Mumbai", "Chennai"]

/-- `process_city` never touches the summary table or the Aggregator
call log. -/
theorem process_city_preserves (cfg : WeatherConfig) (smtpOk : Bool)
    (fetch : String → Option ApiResponse) (st : MonitorState)
    (city : String) :
    (process_city cfg smtpOk fetch st city).aggCalls = st.aggCalls ∧
    (process_city cfg smtpOk fetch st city).summaries = st.summaries := by
  unfold process_city
  cases get_weather_data cfg city (fetch city) <;> simp

/-- The per-location pass of a cycle never touches the summary table or
the Aggregator call log. -/
theorem foldl_process_city_preserves (cfg : WeatherConfig)
    (smtpOk : Bool) (fetch : String → Option ApiResponse)
    (l : List String) :
    ∀ st : MonitorState,
      (l.foldl (process_city cfg smtpOk fetch) st).aggCalls =
        st.aggCalls ∧
      (l.foldl (process_city cfg smtpOk fetch) st).summaries =
        st.summaries := by
  induction l with
  | nil => intro st; exact ⟨rfl, rfl⟩
  | cons y ys ih =>
    intro st
    obtain ⟨h1, h2⟩ := ih (process_city cfg smtpOk fetch st y)
    obtain ⟨h3, h4⟩ := process_city_preserves cfg smtpOk fetch st y
    rw [List.foldl_cons]
    exact ⟨h1.trans h3, h2.trans h4⟩

/-- The midnight loop appends one Aggregator call `(city, date)` per
city, in configuration order. -/
theorem foldl_aggregateStep_calls (d : Int) (l : List String) :
    ∀ st : MonitorState,
      (l.foldl (fun s city => aggregateStep s d city) st).aggCalls =
        st.aggCalls ++ l.map (fun city => (city, d)) := by
  induction l with
  | nil => intro st; simp
  | cons y ys ih =>
    intro st
    rw [List.foldl_cons, ih (aggregateStep st d y)]
    simp [aggregateStep]

/-- C9: the daily aggregation trigger of a cycle is the minute-level
wall-clock comparison `hour == 0 and minute == 0`: exactly when it
holds, the cycle invokes the Aggregator once per configured city for
the previous calendar date (`date - 1`), and when it does not hold the
cycle performs no Aggregator call and leaves the summary table
untouched. -/
theorem midnight_trigger_aggregation (cfg : WeatherConfig)
    (smtpOk : Bool) (fetch : String → Option ApiResponse)
    (now : LocalTime) (st : MonitorState) :
    ((run_cycle cfg smtpOk fetch now st).aggCalls =
      st.aggCalls ++
        (if now.hour = 0 ∧ now.minute = 0 then
          cfg.cities.map (fun city => (city, now.date - 1))
        else [])) ∧
    (¬ (now.hour = 0 ∧ now.minute = 0) →
      (run_cycle cfg smtpOk fetch now st).summaries = st.summaries) := by
  obtain ⟨hp1, hp2⟩ :=
    foldl_process_city_preserves cfg smtpOk fetch cfg.cities st
  by_cases ht : now.hour = 0 ∧ now.minute = 0
  · refine ⟨?_, fun hc => absurd ht hc⟩
    rw [if_pos ht]
    unfold run_cycle
    rw [if_pos ht, foldl_aggregateStep_calls, hp1]
  · refine ⟨?_, fun _ => ?_⟩
    · rw [if_neg ht]
      unfold run_cycle
      rw [if_neg ht, hp1, List.append_nil]
    · unfold run_cycle
      rw [if_neg ht]
      exact hp2

/-- Witness for `midnight_trigger_aggregation` at the non-midnight
time 12:30 and at midnight 00:00. -/
theorem midnight_trigger_aggregation_witness :
    ((run_cycle cfgCelsius true fetchSkipMumbai ⟨12, 30, 5⟩
        initState).aggCalls =
      initState.aggCalls ++
        (if (12 : Nat) = 0 ∧ (30 : Nat) = 0 then
          cfgCelsius.cities.map (fun city => (city, (5 : Int) - 1))
        else [])) ∧
    ((run_cycle cfgCelsius true fetchSkipMumbai ⟨12, 30, 5⟩
        initState).summaries = initState.summaries) ∧
    ((run_cycle cfgCelsius true fetchSkipMumbai ⟨0, 0, 5⟩
        initState).aggCalls =
      initState.aggCalls ++
        (if (0 : Nat) = 0 ∧ (0 : Nat) = 0 then
          cfgCelsius.cities.map (fun city => (city, (5 : Int) - 1))
        else [])) :=
  ⟨(midnight_trigger_aggregation cfgCelsius true fetchSkipMumbai
      ⟨12, 30, 5⟩ initState).1,
   (midnight_trigger_aggregation cfgCelsius true fetchSkipMumbai
      ⟨12, 30, 5⟩ initState).2 (by decide),
   (midnight_trigger_aggregation cfgCelsius true fetchSkipMumbai
      ⟨0, 0, 5⟩ initState).1⟩
